import Mathlib

/-!
# Verification of the financial-statement ingestion core

Shallow embedding of the data-source subsystem:
* `src/utils/file_watcher/file_watcher.py` (`FinancialStatementFileWatcher`),
* `src/utils/kafka/consumer.py` (`FinancialStatementConsumer`),
* `src/utils/data_sources/data_source_factory.py` (`DataSourceManager` and the
  adapter wrappers).

Records are opaque to the core, so they are modelled as `Nat` identifiers.
Time is modelled in integral milliseconds; file reads and queue operations are
instantaneous, `time.sleep(polling_interval)` advances the clock by
`polling_interval * 1000` milliseconds.

A central point of the embedding is the CPython generator semantics of
`FinancialStatementFileWatcher.consume_messages`: the caller in
`consume_batch` executes `break` as soon as the accumulated message count
reaches `batch_size`, which abandons the generator at its current `yield`.
The abandoned generator receives `GeneratorExit` (not caught by the
`except Exception` handlers) and therefore never executes the code after the
`yield` — in particular `processed_files.append(file_path)` and the final
archive loop are skipped.  The model makes this explicit: whenever one
generator run emits exactly its `max_messages` yields, the caller breaks and
the run is *abandoned*; the files popped during that run that were not already
moved to the error directory are left in the input directory, unarchived.
-/

namespace Ingest

/-- Raw records are opaque nested maps in the source; identity suffices here. -/
abbrev Rec := Nat

/-- What `json.load` on a dequeued file produces, as seen by
`consume_messages`:
* `single r` — a JSON object, yielded as one record;
* `arr rs` — a JSON array, yielded element by element;
* `malformed err` — `json.JSONDecodeError` (or any other processing
  exception) with message `err`;
* `missing` — `file_path.exists()` is false at dequeue time. -/
inductive FileContent where
  | single (r : Rec)
  | arr (rs : List Rec)
  | malformed (err : String)
  | missing
deriving DecidableEq, Repr

/-- A queued file: its name and the content observed when it is dequeued. -/
structure QFile where
  name : String
  content : FileContent
deriving DecidableEq, Repr

/-- The records a file contributes to the yielded stream: one for a JSON
object, the list elements in order for a JSON array, none for a malformed or
vanished file. -/
def recordsOf : FileContent → List Rec
  | .single r => [r]
  | .arr rs => rs
  | .malformed _ => []
  | .missing => []

/-- All records a queue of files would contribute, in queue order. -/
def flatRecords (queue : List QFile) : List Rec :=
  queue.flatMap (fun f => recordsOf f.content)

/-- Outcome of one run of the `consume_messages` generator (one `for message
in self.consume_messages(...)` loop in `consume_batch`).

`yields` are the records the caller received, in order.  `queue` is what
remains of `self.file_queue`.  `archived` are the files moved to the archive
directory by the final loop of the generator (only reached when the generator
runs to completion).  `errored` are the files moved to the error directory by
`_move_file_to_error`, with the error message (this happens eagerly, inside
the loop).  `dropped` are files that no longer existed at dequeue time
(`continue`, nothing moved).  `leftInInput` are files that were popped off the
queue but neither archived nor errored because the caller broke out of its
loop and the generator was abandoned before its archive loop ran. -/
structure GenOutcome where
  yields : List Rec
  queue : List QFile
  archived : List QFile
  errored : List (QFile × String)
  dropped : List QFile
  leftInInput : List QFile
deriving DecidableEq, Repr

/-- One run of the `consume_messages` generator body
(`file_watcher.py:167-226`), driven by a caller that breaks out of its loop as
soon as it has received `max` yields (the interaction implemented by
`consume_batch`, `file_watcher.py:245-259`).

`max` is `max_messages`; `processed` is the Python local `processed_files`
accumulated so far; `count` is `message_count`.  The `while` guard
`message_count < max_messages and self.file_queue` stops the loop; on normal
completion the archive loop moves every file of `processed_files` to the
archive directory.  When the run emits its `max`-th yield the caller breaks:
the generator is closed at that `yield`, `processed_files.append` does not run
for the current file and the archive loop never runs, so all files of
`processed` plus the current file stay in the input directory. -/
def runGenAux (max : Nat) (processed : List QFile) (count : Nat) :
    List QFile → GenOutcome
  | [] =>
    { yields := [], queue := [], archived := processed, errored := [],
      dropped := [], leftInInput := [] }
  | f :: rest =>
    if max ≤ count then
      { yields := [], queue := f :: rest, archived := processed, errored := [],
        dropped := [], leftInInput := [] }
    else
      match f.content with
      | .missing =>
        let o := runGenAux max processed count rest
        { o with dropped := f :: o.dropped }
      | .malformed e =>
        let o := runGenAux max processed count rest
        { o with errored := (f, e) :: o.errored }
      | .single r =>
        if count + 1 = max then
          { yields := [r], queue := rest, archived := [], errored := [],
            dropped := [], leftInInput := processed ++ [f] }
        else
          let o := runGenAux max (processed ++ [f]) (count + 1) rest
          { o with yields := r :: o.yields }
      | .arr rs =>
        if max - count ≤ rs.length then
          { yields := rs.take (max - count), queue := rest, archived := [],
            errored := [], dropped := [],
            leftInInput := processed ++ [f] }
        else
          let o := runGenAux max (processed ++ [f]) (count + rs.length) rest
          { o with yields := rs ++ o.yields }

/-- One generator run started fresh (`message_count = 0`,
`processed_files = []`) on the current queue. -/
def runGen (max : Nat) (queue : List QFile) : GenOutcome :=
  runGenAux max [] 0 queue

/-- Configuration fields of `FileWatcherConfig` used by the consume path.
`pollingMs` is `polling_interval` converted to milliseconds. -/
structure FWConfig where
  pollingMs : Nat
deriving Repr

/-- `FileWatcherConfig` defaults: `polling_interval = 5` seconds. -/
def defaultFWConfig : FWConfig := { pollingMs := 5000 }

/-- `add_file_to_queue` (`file_watcher.py:161-165`): append the path unless it
is already queued (the existence check is part of the arrival model — only
existing files arrive). -/
def addFileToQueue (queue : List QFile) (f : QFile) : List QFile :=
  if f ∈ queue then queue else queue ++ [f]

/-- Enqueue a burst of watchdog-event arrivals, in event order. -/
def enqueueAll (queue : List QFile) (fs : List QFile) : List QFile :=
  fs.foldl addFileToQueue queue

/-- Running state of one `consume_batch` call, together with the accumulated
disposal effects of its generator runs and the elapsed wall-clock time in
milliseconds. -/
structure BatchState where
  messages : List Rec
  queue : List QFile
  archived : List QFile
  errored : List (QFile × String)
  dropped : List QFile
  leftInInput : List QFile
  elapsedMs : Nat
deriving DecidableEq, Repr

/-- Merge one generator run (with `max_messages = max`) into the batch
state. -/
def applyGen (st : BatchState) (max : Nat) : BatchState :=
  let o := runGen max st.queue
  { st with
    messages := st.messages ++ o.yields
    queue := o.queue
    archived := st.archived ++ o.archived
    errored := st.errored ++ o.errored
    dropped := st.dropped ++ o.dropped
    leftInInput := st.leftInInput ++ o.leftInInput }

/-- The `while` loop of `consume_batch` (`file_watcher.py:251-259`):

```
while len(messages) < batch_size and (time.time() - start_time) < timeout_seconds:
    if not self.file_queue:
        time.sleep(self.config.polling_interval)
        continue
    for message in self.consume_messages(max_messages=batch_size - len(messages)):
        messages.append(message); if len(messages) >= batch_size: break
```

`arrivals t` are the files the watchdog handler enqueues during the `t`-th
sleep.  `fuel` bounds the number of loop iterations so the model is total; a
run that exhausts its fuel returns `none` (the theorems supply enough fuel for
the loop to reach its exit condition). -/
def consumeBatchLoop (cfg : FWConfig) (arrivals : Nat → List QFile)
    (batchSize timeoutMs : Nat) :
    Nat → Nat → BatchState → Option BatchState
  | 0, _, _ => none
  | fuel + 1, tick, st =>
    if batchSize ≤ st.messages.length then some st
    else if timeoutMs ≤ st.elapsedMs then some st
    else if st.queue.isEmpty then
      consumeBatchLoop cfg arrivals batchSize timeoutMs fuel (tick + 1)
        { st with
          elapsedMs := st.elapsedMs + cfg.pollingMs
          queue := enqueueAll st.queue (arrivals tick) }
    else
      consumeBatchLoop cfg arrivals batchSize timeoutMs fuel tick
        (applyGen st (batchSize - st.messages.length))

/-- `FinancialStatementFileWatcher.consume_batch`
(`file_watcher.py:228-266`), assuming the watcher is already connected (the
`connect` branch of `consume_messages` is conditioned away; it only runs when
`is_connected` is false).  First one generator run with
`max_messages = batch_size`, then the timed polling loop. -/
def fwConsumeBatch (cfg : FWConfig) (arrivals : Nat → List QFile)
    (queue : List QFile) (batchSize timeoutMs fuel : Nat) :
    Option BatchState :=
  let st0 : BatchState :=
    { messages := [], queue := queue, archived := [], errored := [],
      dropped := [], leftInInput := [], elapsedMs := 0 }
  consumeBatchLoop cfg arrivals batchSize timeoutMs fuel 0
    (applyGen st0 batchSize)

/-- No watchdog events: an empty arrival schedule. -/
def noArrivals : Nat → List QFile := fun _ => []

/-! ## Disposal helpers: `_archive_file` and `_move_file_to_error` -/

/-- `_archive_file` (`file_watcher.py:268-284`) destination name:
`f"{timestamp}_{file_path.name}"` inside the archive directory. -/
def archiveName (timestamp name : String) : String :=
  timestamp ++ "_" ++ name

/-- The sibling error report written by `_move_file_to_error`
(`file_watcher.py:296-300`): original file name, ISO timestamp, error
message. -/
structure ErrorReport where
  originalName : String
  timestamp : String
  reason : String
deriving DecidableEq, Repr

/-- Result of `_move_file_to_error` (`file_watcher.py:286-305`): the file is
moved to the error directory as `f"{timestamp}_{file_path.name}"` and a
sibling report is written. -/
structure ErrorMove where
  destName : String
  report : ErrorReport
deriving DecidableEq, Repr

/-- `_move_file_to_error` (`file_watcher.py:286-305`), with the two clock
samples (`strftime('%Y%m%d_%H%M%S')` and `isoformat()`) passed in as opaque
strings. -/
def moveFileToError (nowStamp nowIso : String) (name errorMessage : String) :
    ErrorMove :=
  { destName := nowStamp ++ "_" ++ name
    report :=
      { originalName := name, timestamp := nowIso, reason := errorMessage } }

/-! ## The startup backlog scan: `_scan_existing_files` and `_is_file_ready` -/

/-- Shell-style glob matching on file names, as `pathlib.Path.glob` applies a
pattern to the entries of one directory: `*` matches any (possibly empty) run
of characters, `?` any single character, anything else itself.  A `*`
consumes an arbitrary prefix, so the rest of the pattern must match some
suffix of the string. -/
def globMatch : List Char → List Char → Bool
  | [], s => s.isEmpty
  | '*' :: ps, s => s.tails.any fun suffix => globMatch ps suffix
  | _ :: _, [] => false
  | p :: ps, c :: cs => (p == '?' || p == c) && globMatch ps cs

/-- Glob matching on strings. -/
def matchesPattern (pattern name : String) : Bool :=
  globMatch pattern.toList name.toList

/-- One input-directory entry as observed by the backlog scan: its name, its
modification time, and the two size samples taken by `_is_file_ready`
(`st_size` before the 0.5 s wait, existence and `st_size` after it). -/
structure ScanFile where
  name : String
  mtime : Nat
  initialSize : Nat
  existsAfterWait : Bool
  finalSize : Nat
deriving DecidableEq, Repr

/-- `_is_file_ready` (`file_watcher.py:134-159`): sample the size, sleep
0.5 s, and the file is ready iff it still exists, the size is unchanged and
the size is positive. -/
def isFileReady (f : ScanFile) : Bool :=
  f.existsAfterWait && (f.initialSize == f.finalSize) && decide (0 < f.finalSize)

/-- The enqueue loop of `_scan_existing_files` over the sorted file list:
`add_file_to_queue` appends each ready file unless a file of that name is
already queued. -/
def scanEnqueue (queue : List ScanFile) : List ScanFile → List ScanFile
  | [] => queue
  | f :: rest =>
    if isFileReady f then
      scanEnqueue
        (if f.name ∈ queue.map ScanFile.name then queue else queue ++ [f]) rest
    else
      scanEnqueue queue rest

/-- Ordering of scan entries by modification time, the key of
`json_files.sort(key=lambda x: x.stat().st_mtime)`. -/
def mtimeLE (a b : ScanFile) : Prop :=
  a.mtime ≤ b.mtime

instance : DecidableRel mtimeLE :=
  fun a b => Nat.decLe a.mtime b.mtime

instance : IsTotal ScanFile mtimeLE :=
  ⟨fun a b => Nat.le_total a.mtime b.mtime⟩

instance : IsTrans ScanFile mtimeLE :=
  ⟨fun _ _ _ => Nat.le_trans⟩

/-- `_scan_existing_files` (`file_watcher.py:116-132`): the source calls
`self.config.input_dir.glob("*.json")` with the literal pattern `"*.json"` —
the configured `file_pattern` (passed here so the dependence can be stated)
is in scope but unused — sorts the matches by modification time ascending
(Python's `sort` is stable; `insertionSort` is the same stable sort), and
enqueues each file that passes the readiness check. -/
def scanExistingFiles (filePattern : String) (listing : List ScanFile) :
    List ScanFile :=
  let jsonFiles := listing.filter (fun f => matchesPattern "*.json" f.name)
  let sorted := jsonFiles.insertionSort mtimeLE
  scanEnqueue [] sorted

/-- Follows the spec's words (for comparison with `scanExistingFiles`, which
is translated from the source): "lists files matching the glob" — the
*configured* glob pattern — "sorts by modification time ascending, and
enqueues each that passes a readiness check". -/
def scanExistingFilesClaimed (filePattern : String) (listing : List ScanFile) :
    List ScanFile :=
  let matchingFiles := listing.filter (fun f => matchesPattern filePattern f.name)
  let sorted := matchingFiles.insertionSort mtimeLE
  scanEnqueue [] sorted

/-! ## Broker adapter: `FinancialStatementConsumer` (`consumer.py`) -/

/-- One broker message after deserialization and validation:
`some r` when `validator.validate_statement_message` returns a truthy value
`r`, `none` when it returns a falsy value or validation/decoding raises (the
message is skipped, `consumer.py:83-92`). -/
abbrev KMsg := Option Rec

/-- `FinancialStatementConsumer.consume_messages` (`consumer.py:51-98`):
iterate the buffered stream, breaking once `message_count` reaches
`max_messages`; invalid messages are skipped without counting. -/
def kafkaConsumeMessages (max : Nat) : List KMsg → List Rec
  | [] => []
  | m :: rest =>
    if max = 0 then []
    else
      match m with
      | some r => r :: kafkaConsumeMessages (max - 1) rest
      | none => kafkaConsumeMessages max rest

/-- Result of `FinancialStatementConsumer.consume_batch` together with the
time the call took. -/
structure KafkaBatchResult where
  messages : List Rec
  elapsedMs : Nat
deriving DecidableEq, Repr

/-- `FinancialStatementConsumer.consume_batch` (`consumer.py:100-122`).  The
`timeout_ms` parameter is accepted but never used — the iteration stops via
the *client's* `consumer_timeout_ms` taken from the configuration
(`consumer.py:40`).  Timing abstraction: messages already buffered in
`stream` arrive instantly; when the stream is exhausted before the batch
fills, the consumer iterator waits `consumer_timeout_ms` for further messages
and then stops. -/
def kafkaConsumeBatch (cfgConsumerTimeoutMs : Nat) (stream : List KMsg)
    (batchSize timeoutMs : Nat) : KafkaBatchResult :=
  { messages := kafkaConsumeMessages batchSize stream
    elapsedMs :=
      if (stream.filterMap id).length < batchSize then cfgConsumerTimeoutMs
      else 0 }

/-- `KAFKA_CONFIG['consumer_timeout_ms']` (`config/airflow_config.py:23`). -/
def defaultConsumerTimeoutMs : Nat := 10000

/-! ## `close` on the two adapters -/

/-- State of `FinancialStatementFileWatcher` relevant to `close`: whether
`self.observer` exists and `is_alive()`, the `is_connected` flag, and whether
`observer.stop()`/`join()` would raise on this call (environment
behaviour). -/
structure FWCloseState where
  observerAlive : Bool
  connected : Bool
  stopRaises : Bool
deriving DecidableEq, Repr

/-- The `try` body of `FinancialStatementFileWatcher.close`
(`file_watcher.py:335-341`): stop and join the observer if alive (which may
raise), then set `is_connected = False`.  The flag assignment is *inside* the
`try`, so it is skipped when `stop` raises. -/
def fwCloseBody (st : FWCloseState) : Except String FWCloseState :=
  if st.observerAlive then
    if st.stopRaises then .error "observer stop failed"
    else .ok { st with observerAlive := false, connected := false }
  else .ok { st with connected := false }

/-- `FinancialStatementFileWatcher.close` (`file_watcher.py:333-344`): the
whole body is wrapped in `try/except Exception`, which logs and swallows, so
the call itself never raises. -/
def fwClose (st : FWCloseState) : FWCloseState :=
  match fwCloseBody st with
  | .ok st2 => st2
  | .error _ => st

/-- State of the `KafkaDataSource` adapter relevant to `close`: whether
`self.consumer.consumer` is set, the adapter's `is_connected` flag, and
whether the underlying client `close` would raise. -/
structure KafkaCloseState where
  hasConsumer : Bool
  connected : Bool
  closeRaises : Bool
deriving DecidableEq, Repr

/-- `FinancialStatementConsumer.close` (`consumer.py:124-128`): closes the
underlying client if one exists; nothing catches a failure here. -/
def kafkaConsumerClose (st : KafkaCloseState) : Except String KafkaCloseState :=
  if st.hasConsumer then
    if st.closeRaises then .error "client close failed" else .ok st
  else .ok st

/-- `KafkaDataSource.close` (`data_source_factory.py:94-100`): calls the
consumer's `close` and then sets `is_connected = False`, both inside a
`try/except` that logs and swallows — so when the underlying close raises,
the flag assignment is skipped and the call still returns normally. -/
def kafkaDataSourceClose (st : KafkaCloseState) : KafkaCloseState :=
  match kafkaConsumerClose st with
  | .ok st2 => { st2 with connected := false }
  | .error _ => st

/-! ## `DataSourceManager` (`data_source_factory.py:284-382`) -/

/-- `DataSourceType` (`data_source_factory.py:16-19`). -/
inductive SourceKind where
  | kafka
  | fileWatcher
deriving DecidableEq, Repr

/-- A constructed adapter (`KafkaDataSource` / `FileWatcherDataSource`) as the
Manager sees it: its kind and its `is_connected` flag. -/
structure Adapter where
  kind : SourceKind
  connected : Bool
deriving DecidableEq, Repr

/-- `DataSourceManager.__init__` state: `current_source` and `current_type`
(`data_source_factory.py:289-292`). -/
structure ManagerState where
  currentSource : Option Adapter
  currentType : Option SourceKind
deriving DecidableEq, Repr

/-- The `Uninitialized` Manager: no active source. -/
def initialManager : ManagerState :=
  { currentSource := none, currentType := none }

/-- Environment outcomes of one `initialize_source` call: whether
`factory.create_data_source` raises, and whether `connect()` on the new
adapter returns `True`. -/
structure InitEnv where
  constructRaises : Bool
  connectSucceeds : Bool
deriving DecidableEq, Repr

/-- The adapter wrappers' `close` sets `is_connected = False` and swallows
failures (`data_source_factory.py:94-100` and `152-158`). -/
def adapterClose (a : Adapter) : Adapter :=
  { a with connected := false }

/-- `DataSourceManager.initialize_source` (`data_source_factory.py:294-335`):
close any existing source (the closed adapter object stays referenced by
`self.current_source`); construct the new adapter — a raise is caught and the
call returns `False` with `current_source` still holding the old, closed
adapter; on success assign the new adapter and its type; if `auto_connect`
and `connect()` returns `False`, return `False` with `current_source` holding
the new, unconnected adapter. -/
def initializeSource (st : ManagerState) (kind : SourceKind)
    (autoConnect : Bool) (env : InitEnv) : Bool × ManagerState :=
  let st1 : ManagerState :=
    { st with currentSource := st.currentSource.map adapterClose }
  if env.constructRaises then
    (false, st1)
  else
    let newAdapter : Adapter := { kind := kind, connected := false }
    let st2 : ManagerState :=
      { currentSource := some newAdapter, currentType := some kind }
    if autoConnect then
      if env.connectSucceeds then
        (true,
          { st2 with
            currentSource := some { newAdapter with connected := true } })
      else
        (false, st2)
    else
      (true, st2)

/-- `DataSourceManager.switch_source` (`data_source_factory.py:337-353`):
`initialize_source` with `auto_connect=True`. -/
def switchSource (st : ManagerState) (kind : SourceKind) (env : InitEnv) :
    Bool × ManagerState :=
  initializeSource st kind true env

/-- What `DataSourceManager.get_status` returns
(`data_source_factory.py:359-368`): the distinguished
`{'status': 'no_source_initialized'}` dictionary when no source exists,
otherwise the current type plus the delegated source status. -/
inductive ManagerStatus where
  | noSourceInitialized
  | active (currentType : Option SourceKind) (connected : Bool)
deriving DecidableEq, Repr

/-- `DataSourceManager.get_status` (`data_source_factory.py:359-368`). -/
def managerGetStatus (st : ManagerState) : ManagerStatus :=
  match st.currentSource with
  | none => .noSourceInitialized
  | some a => .active st.currentType a.connected

/-- `DataSourceManager.consume_batch` (`data_source_factory.py:370-375`):
raises `RuntimeError("No data source initialized")` when no source exists,
otherwise delegates to the current adapter (the adapters' batch behaviour is
modelled separately above, so the delegation result is abstracted to the
adapter it goes to). -/
def managerConsumeBatch (st : ManagerState) : Except String Adapter :=
  match st.currentSource with
  | none => .error "No data source initialized"
  | some a => .ok a

/-- `DataSourceManager.close` (`data_source_factory.py:377-382`): when no
source exists the `if` guard fails and the method silently returns — it does
not raise; otherwise it closes the adapter and clears both fields. -/
def managerClose (st : ManagerState) : Except String ManagerState :=
  match st.currentSource with
  | none => .ok st
  | some _ => .ok { currentSource := none, currentType := none }

/-! ## Lemmas about the generator run -/

@[simp] theorem flatRecords_nil : flatRecords [] = [] := rfl

@[simp] theorem flatRecords_cons (f : QFile) (rest : List QFile) :
    flatRecords (f :: rest) = recordsOf f.content ++ flatRecords rest := by
  simp [flatRecords]

/-- The records one generator run hands to its caller are exactly the first
`max_messages - message_count` records of the queued files' contents, in
queue order and, within an array file, in list order. -/
theorem runGenAux_yields (max : Nat) (queue : List QFile) :
    ∀ (processed : List QFile) (count : Nat),
      (runGenAux max processed count queue).yields
        = (flatRecords queue).take (max - count) := by
  induction queue with
  | nil => intro processed count; simp [runGenAux]
  | cons f rest ih =>
    intro processed count
    by_cases hguard : max ≤ count
    · simp [runGenAux, hguard, Nat.sub_eq_zero_of_le hguard]
    · cases hc : f.content with
      | missing => simp [runGenAux, hguard, hc, ih, recordsOf]
      | malformed e => simp [runGenAux, hguard, hc, ih, recordsOf]
      | single r =>
        by_cases hab : count + 1 = max
        · have h1 : max - count = 1 := by omega
          simp [runGenAux, hguard, hc, hab, recordsOf, h1]
        · have h1 : max - count = (max - (count + 1)) + 1 := by omega
          simp only [runGenAux, if_neg hguard, hc, if_neg hab]
          simp [ih, hc, recordsOf, h1, List.take_succ_cons]
      | arr rs =>
        by_cases hab : max - count ≤ rs.length
        · simp only [runGenAux, if_neg hguard, hc, if_pos hab]
          simp [hc, recordsOf, List.take_append_of_le_length hab]
        · have h1 : max - count = rs.length + (max - (count + rs.length)) := by
            omega
          simp only [runGenAux, if_neg hguard, hc, if_neg hab]
          simp [ih, hc, recordsOf, h1, List.take_append]

/-- When the queue holds fewer records than the remaining capacity, the
generator run consumes the whole queue. -/
theorem runGenAux_queue_nil (max : Nat) (queue : List QFile) :
    ∀ (processed : List QFile) (count : Nat),
      count + (flatRecords queue).length < max →
      (runGenAux max processed count queue).queue = [] := by
  induction queue with
  | nil => intro processed count _; simp [runGenAux]
  | cons f rest ih =>
    intro processed count hreach
    have hguard : ¬ max ≤ count := by omega
    cases hc : f.content with
    | missing =>
      simp only [flatRecords_cons, hc, recordsOf, List.nil_append] at hreach
      simp [runGenAux, hguard, hc, ih _ _ hreach]
    | malformed e =>
      simp only [flatRecords_cons, hc, recordsOf, List.nil_append] at hreach
      simp [runGenAux, hguard, hc, ih _ _ hreach]
    | single r =>
      simp only [flatRecords_cons, hc, recordsOf, List.length_append,
        List.length_cons, List.length_nil] at hreach
      have hab : ¬ count + 1 = max := by omega
      have hreach2 : (count + 1) + (flatRecords rest).length < max := by omega
      simp [runGenAux, hguard, hc, hab, ih _ _ hreach2]
    | arr rs =>
      simp only [flatRecords_cons, hc, recordsOf, List.length_append]
        at hreach
      have hab : ¬ max - count ≤ rs.length := by omega
      have hreach2 : (count + rs.length) + (flatRecords rest).length < max := by
        omega
      simp [runGenAux, hguard, hc, hab, ih _ _ hreach2]

/-- A generator run yields at most its `max_messages`. -/
theorem runGenAux_yields_length_le (max : Nat) (queue processed : List QFile)
    (count : Nat) :
    (runGenAux max processed count queue).yields.length ≤ max - count := by
  rw [runGenAux_yields]
  simp [List.length_take]

/-! ## Lemmas about the `consume_batch` polling loop -/

/-- The accumulated message count never exceeds `batch_size` across loop
iterations. -/
theorem consumeBatchLoop_length_le (cfg : FWConfig) (arrivals : Nat → List QFile)
    (batchSize timeoutMs : Nat) :
    ∀ (fuel tick : Nat) (st st' : BatchState),
      st.messages.length ≤ batchSize →
      consumeBatchLoop cfg arrivals batchSize timeoutMs fuel tick st = some st' →
      st'.messages.length ≤ batchSize := by
  intro fuel
  induction fuel with
  | zero => intro tick st st' _ h; exact absurd h (by simp [consumeBatchLoop])
  | succ fuel ih =>
    intro tick st st' hlen h
    rw [consumeBatchLoop] at h
    by_cases h1 : batchSize ≤ st.messages.length
    · rw [if_pos h1] at h
      cases h
      exact hlen
    · rw [if_neg h1] at h
      by_cases h2 : timeoutMs ≤ st.elapsedMs
      · rw [if_pos h2] at h
        cases h
        exact hlen
      · rw [if_neg h2] at h
        by_cases h3 : st.queue.isEmpty
        · rw [if_pos h3] at h
          exact ih _ _ _ (by simpa using hlen) h
        · rw [if_neg h3] at h
          refine ih _ _ _ ?_ h
          have hy := runGenAux_yields_length_le
            (batchSize - st.messages.length) st.queue [] 0
          simp only [applyGen, runGen, List.length_append]
          omega

/-- With an empty queue and no watchdog arrivals, the polling loop just
sleeps until the timeout elapses (or the batch is already full), leaving
every field but the clock unchanged. -/
theorem consumeBatchLoop_empty_queue (cfg : FWConfig)
    (batchSize timeoutMs : Nat) :
    ∀ (fuel tick : Nat) (st : BatchState),
      st.queue = [] →
      timeoutMs ≤ st.elapsedMs + fuel * cfg.pollingMs →
      ∃ e, consumeBatchLoop cfg noArrivals batchSize timeoutMs (fuel + 1) tick st
            = some { st with elapsedMs := e }
        ∧ st.elapsedMs ≤ e
        ∧ (batchSize ≤ st.messages.length ∨ timeoutMs ≤ e) := by
  intro fuel
  induction fuel with
  | zero =>
    intro tick st hq hfuel
    rw [consumeBatchLoop]
    by_cases h1 : batchSize ≤ st.messages.length
    · exact ⟨st.elapsedMs, by rw [if_pos h1], Nat.le_refl _, Or.inl h1⟩
    · have h2 : timeoutMs ≤ st.elapsedMs := by simpa using hfuel
      exact ⟨st.elapsedMs, by rw [if_neg h1, if_pos h2], Nat.le_refl _,
        Or.inr h2⟩
  | succ fuel ih =>
    intro tick st hq hfuel
    rw [consumeBatchLoop]
    by_cases h1 : batchSize ≤ st.messages.length
    · exact ⟨st.elapsedMs, by rw [if_pos h1], Nat.le_refl _, Or.inl h1⟩
    · by_cases h2 : timeoutMs ≤ st.elapsedMs
      · exact ⟨st.elapsedMs, by rw [if_neg h1, if_pos h2], Nat.le_refl _,
          Or.inr h2⟩
      · have h3 : st.queue.isEmpty := by simp [hq]
        rw [if_neg h1, if_neg h2, if_pos h3]
        have hst' :
            ({ st with
                elapsedMs := st.elapsedMs + cfg.pollingMs
                queue := enqueueAll st.queue (noArrivals tick) } : BatchState)
              = { st with elapsedMs := st.elapsedMs + cfg.pollingMs } := by
          simp [enqueueAll, noArrivals]
        rw [hst']
        obtain ⟨e, he, hle, hor⟩ :=
          ih (tick + 1) { st with elapsedMs := st.elapsedMs + cfg.pollingMs }
            (by simpa using hq)
            (by simp only [Nat.succ_mul] at hfuel; simp; omega)
        exact ⟨e, he, by simp at hle; omega, by simpa using hor⟩

/-! ## Lemmas about the broker consumer -/

/-- The broker batch never exceeds the requested size. -/
theorem kafkaConsumeMessages_length_le (stream : List KMsg) :
    ∀ (max : Nat), (kafkaConsumeMessages max stream).length ≤ max := by
  induction stream with
  | nil => intro max; simp [kafkaConsumeMessages]
  | cons m rest ih =>
    intro max
    by_cases h0 : max = 0
    · simp [kafkaConsumeMessages, h0]
    · cases m with
      | some r =>
        simp only [kafkaConsumeMessages, if_neg h0, List.length_cons]
        have := ih (max - 1)
        omega
      | none =>
        simp only [kafkaConsumeMessages, if_neg h0]
        exact ih max

/-- With no watchdog arrivals and enough fuel for the polling loop,
`consume_batch` returns exactly the first `batch_size` records of the queued
files, in queue order. -/
theorem fwConsumeBatch_take (cfg : FWConfig) (queue : List QFile)
    (batchSize timeoutMs fuel : Nat)
    (hfuel : timeoutMs ≤ fuel * cfg.pollingMs) :
    ∃ st, fwConsumeBatch cfg noArrivals queue batchSize timeoutMs (fuel + 1)
          = some st
      ∧ st.messages = (flatRecords queue).take batchSize := by
  have hmsg :
      (applyGen
        { messages := [], queue := queue, archived := [], errored := [],
          dropped := [], leftInInput := [], elapsedMs := 0 } batchSize).messages
        = (flatRecords queue).take batchSize := by
    simp [applyGen, runGen, runGenAux_yields]
  by_cases hcase : batchSize ≤ (flatRecords queue).length
  · have hlen : batchSize ≤
        (applyGen
          { messages := [], queue := queue, archived := [], errored := [],
            dropped := [], leftInInput := [], elapsedMs := 0 }
          batchSize).messages.length := by
      rw [hmsg, List.length_take]
      exact le_min (Nat.le_refl _) hcase
    refine ⟨_, ?_, hmsg⟩
    show consumeBatchLoop cfg noArrivals batchSize timeoutMs (fuel + 1) 0 _
      = some _
    rw [consumeBatchLoop, if_pos hlen]
  · have hflat : (flatRecords queue).length < batchSize := Nat.lt_of_not_le hcase
    have hq :
        (applyGen
          { messages := [], queue := queue, archived := [], errored := [],
            dropped := [], leftInInput := [], elapsedMs := 0 }
          batchSize).queue = [] := by
      simp only [applyGen, runGen]
      exact runGenAux_queue_nil batchSize queue [] 0 (by omega)
    obtain ⟨e, heq, _, _⟩ :=
      consumeBatchLoop_empty_queue cfg batchSize timeoutMs fuel 0 _ hq
        (by simp [applyGen]; omega)
    exact ⟨_, heq, hmsg⟩

/-- **C1** (`code_bug` evaluation): a batch that fills to capacity abandons
the `consume_messages` generator before its archive loop runs.  Concretely:
one queued file `a.json` holding a single record, `consume_batch(1, 5000)`
returns the record, yet the file is neither archived nor moved to the error
directory — it is left in the input directory while no longer queued,
contradicting the claimed invariant that every dequeued file ends in exactly
one of the archive or error directories by the end of the consume call. -/
theorem full_batch_leaves_file_undisposed :
    fwConsumeBatch defaultFWConfig noArrivals
        [{ name := "a.json", content := .single 1 }] 1 5000 10
      = some { messages := [1], queue := [], archived := [], errored := [],
               dropped := [],
               leftInInput := [{ name := "a.json", content := .single 1 }],
               elapsedMs := 0 } := by
  rfl

/-- **C3** (confirmed): for every batch size, every arrival schedule and
every source state, the batch returned by `consume_batch` has length at most
the requested size — on the file-watcher adapter and on the broker
adapter. -/
theorem batch_size_never_exceeded (cfg : FWConfig)
    (arrivals : Nat → List QFile) (queue : List QFile)
    (batchSize timeoutMs fuel : Nat) (st : BatchState)
    (hfw : fwConsumeBatch cfg arrivals queue batchSize timeoutMs fuel = some st)
    (cfgTimeout : Nat) (stream : List KMsg) (batchSize2 timeoutMs2 : Nat) :
    st.messages.length ≤ batchSize
    ∧ (kafkaConsumeBatch cfgTimeout stream batchSize2 timeoutMs2).messages.length
        ≤ batchSize2 := by
  constructor
  · refine consumeBatchLoop_length_le cfg arrivals batchSize timeoutMs fuel 0
      _ st ?_ hfw
    have := runGenAux_yields_length_le batchSize queue [] 0
    simp only [applyGen, runGen, List.length_append, List.length_nil]
    omega
  · exact kafkaConsumeMessages_length_le stream batchSize2

/-- **C3** witness: a concrete two-file queue with batch size 2, and a
concrete broker stream. -/
theorem batch_size_never_exceeded_witness :
    ({ messages := [1], queue := [], archived :=
        [{ name := "a.json", content := .single 1 }], errored := [],
       dropped := [], leftInInput := [], elapsedMs := 5000 } : BatchState
      ).messages.length ≤ 5
    ∧ (kafkaConsumeBatch 10000 [some 7, none, some 8] 2 5000).messages.length
        ≤ 2 :=
  batch_size_never_exceeded defaultFWConfig noArrivals
    [{ name := "a.json", content := .single 1 }] 5 5000 2 _ rfl
    10000 [some 7, none, some 8] 2 5000

/-- **C4** (corrected) counterexample to the claim as stated: with
`batch_size = 0` the file-watcher returns the empty batch immediately, after
0 ms < 5000 ms; and the broker adapter ignores the `timeout_ms` argument
entirely — on an empty source with `timeout_ms = 60000` it returns the empty
batch after its *configured* `consumer_timeout_ms = 10000` ms < 60000 ms. -/
theorem empty_batch_before_timeout :
    (fwConsumeBatch defaultFWConfig noArrivals [] 0 5000 10
        = some { messages := [], queue := [], archived := [], errored := [],
                 dropped := [], leftInInput := [], elapsedMs := 0 })
    ∧ (0 : Nat) < 5000
    ∧ kafkaConsumeBatch defaultConsumerTimeoutMs [] 5 60000
        = { messages := [], elapsedMs := 10000 }
    ∧ defaultConsumerTimeoutMs < 60000 :=
  ⟨rfl, by omega, rfl, by decide⟩

/-- **C4** (corrected, amended): on an empty source both adapters terminate
and return the empty batch; for the file-watcher with `batch_size ≥ 1` the
empty batch is returned only once at least `timeout_ms` has elapsed, while
the broker adapter returns it once its *configured* `consumer_timeout_ms`
has elapsed, independently of the `timeout_ms` argument (and with
`batch_size = 0` the file-watcher returns immediately). -/
theorem empty_source_timeout_amended (cfg : FWConfig)
    (batchSize timeoutMs fuel : Nat) (hpos : 1 ≤ batchSize)
    (hfuel : timeoutMs ≤ fuel * cfg.pollingMs)
    (cfgTimeout batchSize2 timeoutMs2 : Nat) (hpos2 : 1 ≤ batchSize2) :
    (∃ st, fwConsumeBatch cfg noArrivals [] batchSize timeoutMs (fuel + 1)
          = some st
      ∧ st.messages = [] ∧ timeoutMs ≤ st.elapsedMs)
    ∧ kafkaConsumeBatch cfgTimeout [] batchSize2 timeoutMs2
        = { messages := [], elapsedMs := cfgTimeout } := by
  constructor
  · obtain ⟨e, heq, _, hor⟩ :=
      consumeBatchLoop_empty_queue cfg batchSize timeoutMs fuel 0
        (applyGen
          { messages := [], queue := [], archived := [], errored := [],
            dropped := [], leftInInput := [], elapsedMs := 0 } batchSize)
        rfl (by simp [applyGen]; omega)
    refine ⟨_, heq, rfl, ?_⟩
    rcases hor with h | h
    · exfalso
      have h2 : batchSize ≤ 0 := by
        simpa [applyGen, runGen, runGenAux] using h
      omega
    · exact h
  · have h0 : (List.filterMap id ([] : List KMsg)).length < batchSize2 := by
      simpa using hpos2
    simp only [kafkaConsumeBatch, kafkaConsumeMessages]
    rw [if_pos h0]

/-- **C4** witness: file-watcher with batch size 3 and timeout 12000 ms over
an empty source (polling 5000 ms, fuel 3), broker with batch size 5. -/
theorem empty_source_timeout_amended_witness :
    (∃ st, fwConsumeBatch defaultFWConfig noArrivals [] 3 12000 4 = some st
      ∧ st.messages = [] ∧ 12000 ≤ st.elapsedMs)
    ∧ kafkaConsumeBatch defaultConsumerTimeoutMs [] 5 60000
        = { messages := [], elapsedMs := defaultConsumerTimeoutMs } :=
  empty_source_timeout_amended defaultFWConfig 3 12000 3 (by omega)
    (by decide) defaultConsumerTimeoutMs 5 60000 (by omega)

/-- **C9** (confirmed): records are returned in queue (FIFO) order across
files, a file whose content is a list yields its elements in list order, and
the batch is exactly the first `batch_size` records of that flattened
stream. -/
theorem records_in_fifo_and_list_order (cfg : FWConfig) (queue : List QFile)
    (batchSize timeoutMs fuel : Nat)
    (hfuel : timeoutMs ≤ fuel * cfg.pollingMs) :
    ∃ st, fwConsumeBatch cfg noArrivals queue batchSize timeoutMs (fuel + 1)
          = some st
      ∧ st.messages = (flatRecords queue).take batchSize :=
  fwConsumeBatch_take cfg queue batchSize timeoutMs fuel hfuel

/-- **C9** witness: files A, B, C enqueued in that order, B a two-element
list, A and C single objects; `consume_batch(4, 5000)` yields exactly
A, B1, B2, C in that order. -/
theorem records_in_fifo_and_list_order_witness :
    ∃ st, fwConsumeBatch defaultFWConfig noArrivals
            [{ name := "a.json", content := .single 10 },
             { name := "b.json", content := .arr [21, 22] },
             { name := "c.json", content := .single 30 }] 4 5000 2
          = some st
      ∧ st.messages = [10, 21, 22, 30] := by
  obtain ⟨st, h1, h2⟩ :=
    records_in_fifo_and_list_order defaultFWConfig
      [{ name := "a.json", content := .single 10 },
       { name := "b.json", content := .arr [21, 22] },
       { name := "c.json", content := .single 30 }] 4 5000 1 (by decide)
  exact ⟨st, h1, by rw [h2]; rfl⟩

/-- **C10** (corrected) counterexample to the claim as stated: a single
queued file whose content is the three-element list `[1, 2, 3]`, consumed
with `batch_size = 2`: the first two records are returned and the remaining
one is lost, but — contrary to the claim — the file is *not* marked as
processed and archived: the caller's `break` at the batch limit abandons the
generator before `processed_files.append` and the archive loop run, so the
file stays in the input directory, no longer queued. -/
theorem limit_hit_mid_list_counterexample :
    fwConsumeBatch defaultFWConfig noArrivals
        [{ name := "b.json", content := .arr [1, 2, 3] }] 2 5000 10
      = some { messages := [1, 2], queue := [], archived := [], errored := [],
               dropped := [],
               leftInInput := [{ name := "b.json", content := .arr [1, 2, 3] }],
               elapsedMs := 0 } := by
  rfl

/-- **C10** (corrected, amended): when the batch limit is reached after
`j < k` elements of a list file have been yielded, the remaining records are
never returned — by that `consume_batch` call or any later one (the file is
no longer queued) — but the file is *not* archived: the generator is
abandoned at the limit, leaving the file in the input directory. -/
theorem limit_hit_mid_list_amended (cfg : FWConfig) (name : String)
    (rs : List Rec) (batchSize timeoutMs fuel : Nat) (hpos : 0 < batchSize)
    (hlt : batchSize < rs.length) :
    (fwConsumeBatch cfg noArrivals [{ name := name, content := .arr rs }]
        batchSize timeoutMs (fuel + 1)
      = some { messages := rs.take batchSize, queue := [], archived := [],
               errored := [], dropped := [],
               leftInInput := [{ name := name, content := .arr rs }],
               elapsedMs := 0 })
    ∧ ∀ (batchSize2 timeoutMs2 fuel2 : Nat),
        timeoutMs2 ≤ fuel2 * cfg.pollingMs →
        ∃ st2, fwConsumeBatch cfg noArrivals [] batchSize2 timeoutMs2
              (fuel2 + 1) = some st2
          ∧ st2.messages = [] := by
  constructor
  · have hguard : ¬ batchSize ≤ 0 := by omega
    have hab : batchSize ≤ rs.length := Nat.le_of_lt hlt
    have st1eq :
        fwConsumeBatch cfg noArrivals [{ name := name, content := .arr rs }]
            batchSize timeoutMs (fuel + 1)
          = consumeBatchLoop cfg noArrivals batchSize timeoutMs (fuel + 1) 0
              { messages := rs.take batchSize, queue := [], archived := [],
                errored := [], dropped := [],
                leftInInput := [{ name := name, content := .arr rs }],
                elapsedMs := 0 } := by
      simp [fwConsumeBatch, applyGen, runGen, runGenAux, hguard, hab]
    rw [st1eq, consumeBatchLoop,
      if_pos (by
        rw [List.length_take]
        exact le_min (Nat.le_refl _) (Nat.le_of_lt hlt))]
  · intro batchSize2 timeoutMs2 fuel2 hf2
    obtain ⟨st2, h1, h2⟩ :=
      fwConsumeBatch_take cfg [] batchSize2 timeoutMs2 fuel2 hf2
    exact ⟨st2, h1, by simpa using h2⟩

/-- **C10** witness: the five-element list file with batch size 2. -/
theorem limit_hit_mid_list_amended_witness :
    (fwConsumeBatch defaultFWConfig noArrivals
        [{ name := "big.json", content := .arr [1, 2, 3, 4, 5] }] 2 5000 3
      = some { messages := [1, 2], queue := [], archived := [], errored := [],
               dropped := [],
               leftInInput := [{ name := "big.json", content := .arr [1, 2, 3, 4, 5] }],
               elapsedMs := 0 })
    ∧ ∀ (batchSize2 timeoutMs2 fuel2 : Nat),
        timeoutMs2 ≤ fuel2 * defaultFWConfig.pollingMs →
        ∃ st2, fwConsumeBatch defaultFWConfig noArrivals [] batchSize2
              timeoutMs2 (fuel2 + 1) = some st2
          ∧ st2.messages = [] := by
  have h := limit_hit_mid_list_amended defaultFWConfig "big.json"
    [1, 2, 3, 4, 5] 2 5000 2 (by decide) (by decide)
  exact ⟨h.1, h.2⟩

/-- Removing a malformed file from anywhere the generator reaches changes
nothing about the run except that the file lands in `errored`: the yields,
the remaining queue, the archive list, the dropped list and the abandoned
list are identical to the run on the queue without it. -/
theorem runGenAux_malformed (max : Nat) (f : QFile) (e : String)
    (hf : f.content = .malformed e) (post : List QFile) :
    ∀ (pre processed : List QFile) (count : Nat),
      count + (flatRecords pre).length < max →
      ((runGenAux max processed count (pre ++ f :: post)).yields
          = (runGenAux max processed count (pre ++ post)).yields
        ∧ (runGenAux max processed count (pre ++ f :: post)).queue
          = (runGenAux max processed count (pre ++ post)).queue
        ∧ (runGenAux max processed count (pre ++ f :: post)).archived
          = (runGenAux max processed count (pre ++ post)).archived
        ∧ (runGenAux max processed count (pre ++ f :: post)).dropped
          = (runGenAux max processed count (pre ++ post)).dropped
        ∧ (runGenAux max processed count (pre ++ f :: post)).leftInInput
          = (runGenAux max processed count (pre ++ post)).leftInInput)
      ∧ ∃ e1 e2,
        (runGenAux max processed count (pre ++ f :: post)).errored
            = e1 ++ (f, e) :: e2
        ∧ (runGenAux max processed count (pre ++ post)).errored = e1 ++ e2 := by
  intro pre
  induction pre with
  | nil =>
    intro processed count hreach
    have hguard : ¬ max ≤ count := by
      simp only [flatRecords_nil, List.length_nil, Nat.add_zero] at hreach
      omega
    refine ⟨⟨?_, ?_, ?_, ?_, ?_⟩,
      [], (runGenAux max processed count post).errored, ?_, ?_⟩
    all_goals simp [runGenAux, hguard, hf]
  | cons g pre ih =>
    intro processed count hreach
    have hguard : ¬ max ≤ count := by omega
    cases hg : g.content with
    | missing =>
      have hreach2 : count + (flatRecords pre).length < max := by
        simp only [flatRecords_cons, hg, recordsOf, List.nil_append] at hreach
        exact hreach
      obtain ⟨⟨hy, hq, ha, hd, hl⟩, e1, e2, he1, he2⟩ :=
        ih processed count hreach2
      refine ⟨⟨?_, ?_, ?_, ?_, ?_⟩, e1, e2, ?_, ?_⟩
      all_goals
        simp [runGenAux, hguard, hg, List.cons_append, hy, hq, ha, hd, hl,
          he1, he2]
    | malformed e0 =>
      have hreach2 : count + (flatRecords pre).length < max := by
        simp only [flatRecords_cons, hg, recordsOf, List.nil_append] at hreach
        exact hreach
      obtain ⟨⟨hy, hq, ha, hd, hl⟩, e1, e2, he1, he2⟩ :=
        ih processed count hreach2
      refine ⟨⟨?_, ?_, ?_, ?_, ?_⟩, (g, e0) :: e1, e2, ?_, ?_⟩
      all_goals
        simp [runGenAux, hguard, hg, List.cons_append, hy, hq, ha, hd, hl,
          he1, he2]
    | single r =>
      have hlen : flatRecords (g :: pre) = r :: flatRecords pre := by
        simp [flatRecords_cons, hg, recordsOf]
      rw [hlen] at hreach
      simp only [List.length_cons] at hreach
      have hab : ¬ count + 1 = max := by omega
      have hreach2 : (count + 1) + (flatRecords pre).length < max := by omega
      obtain ⟨⟨hy, hq, ha, hd, hl⟩, e1, e2, he1, he2⟩ :=
        ih (processed ++ [g]) (count + 1) hreach2
      refine ⟨⟨?_, ?_, ?_, ?_, ?_⟩, e1, e2, ?_, ?_⟩
      all_goals
        simp [runGenAux, hguard, hg, hab, List.cons_append, hy, hq, ha, hd,
          hl, he1, he2]
    | arr rs =>
      have hlen : flatRecords (g :: pre) = rs ++ flatRecords pre := by
        simp [flatRecords_cons, hg, recordsOf]
      rw [hlen] at hreach
      simp only [List.length_append] at hreach
      have hab : ¬ max - count ≤ rs.length := by omega
      have hreach2 : (count + rs.length) + (flatRecords pre).length < max := by
        omega
      obtain ⟨⟨hy, hq, ha, hd, hl⟩, e1, e2, he1, he2⟩ :=
        ih (processed ++ [g]) (count + rs.length) hreach2
      refine ⟨⟨?_, ?_, ?_, ?_, ?_⟩, e1, e2, ?_, ?_⟩
      all_goals
        simp [runGenAux, hguard, hg, hab, List.cons_append, hy, hq, ha, hd,
          hl, he1, he2]

/-- **C6** (confirmed): a dequeued file that fails to decode contributes no
records to the batch, is recorded in the error directory with a
timestamp-prefixed name and a sibling report holding the original name, the
ISO timestamp and the failure reason, and batch assembly continues with the
next queued file exactly as if the failing file had not been queued — the
decode failure never aborts the batch. -/
theorem decode_failure_quarantined_batch_continues (max count : Nat)
    (processed pre post : List QFile) (f : QFile) (e : String)
    (hf : f.content = .malformed e)
    (hreach : count + (flatRecords pre).length < max)
    (nowStamp nowIso : String) :
    (runGenAux max processed count (pre ++ f :: post)).yields
        = (runGenAux max processed count (pre ++ post)).yields
    ∧ (∃ e1 e2,
        (runGenAux max processed count (pre ++ f :: post)).errored
            = e1 ++ (f, e) :: e2
        ∧ (runGenAux max processed count (pre ++ post)).errored = e1 ++ e2)
    ∧ (runGenAux max processed count (pre ++ f :: post)).queue
        = (runGenAux max processed count (pre ++ post)).queue
    ∧ (runGenAux max processed count (pre ++ f :: post)).archived
        = (runGenAux max processed count (pre ++ post)).archived
    ∧ moveFileToError nowStamp nowIso f.name e
        = { destName := nowStamp ++ "_" ++ f.name
            report := { originalName := f.name, timestamp := nowIso,
                        reason := e } } := by
  obtain ⟨⟨hy, hq, ha, _, _⟩, e1, e2, he1, he2⟩ :=
    runGenAux_malformed max f e hf post pre processed count hreach
  exact ⟨hy, ⟨e1, e2, he1, he2⟩, hq, ha, rfl⟩

/-- **C6** witness: queue `[a.json, bad.json, c.json]` where `bad.json` fails
to decode, consumed with capacity 10. -/
theorem decode_failure_quarantined_batch_continues_witness :
    (runGenAux 10 [] 0
        ([{ name := "a.json", content := .single 1 }]
          ++ { name := "bad.json", content := .malformed "boom" }
            :: [{ name := "c.json", content := .single 4 }])).yields
      = (runGenAux 10 [] 0
          ([{ name := "a.json", content := .single 1 }]
            ++ [{ name := "c.json", content := .single 4 }])).yields
    ∧ (∃ e1 e2,
        (runGenAux 10 [] 0
            ([{ name := "a.json", content := .single 1 }]
              ++ { name := "bad.json", content := .malformed "boom" }
                :: [{ name := "c.json", content := .single 4 }])).errored
          = e1 ++ ({ name := "bad.json", content := .malformed "boom" }, "boom")
              :: e2
        ∧ (runGenAux 10 [] 0
            ([{ name := "a.json", content := .single 1 }]
              ++ [{ name := "c.json", content := .single 4 }])).errored
          = e1 ++ e2)
    ∧ (runGenAux 10 [] 0
        ([{ name := "a.json", content := .single 1 }]
          ++ { name := "bad.json", content := .malformed "boom" }
            :: [{ name := "c.json", content := .single 4 }])).queue
      = (runGenAux 10 [] 0
          ([{ name := "a.json", content := .single 1 }]
            ++ [{ name := "c.json", content := .single 4 }])).queue
    ∧ (runGenAux 10 [] 0
        ([{ name := "a.json", content := .single 1 }]
          ++ { name := "bad.json", content := .malformed "boom" }
            :: [{ name := "c.json", content := .single 4 }])).archived
      = (runGenAux 10 [] 0
          ([{ name := "a.json", content := .single 1 }]
            ++ [{ name := "c.json", content := .single 4 }])).archived
    ∧ moveFileToError "20240101_120000" "2024-01-01T12:00:00" "bad.json" "boom"
        = { destName := "20240101_120000" ++ "_" ++ "bad.json"
            report := { originalName := "bad.json",
                        timestamp := "2024-01-01T12:00:00",
                        reason := "boom" } } :=
  decode_failure_quarantined_batch_continues 10 0 []
    [{ name := "a.json", content := .single 1 }]
    [{ name := "c.json", content := .single 4 }]
    { name := "bad.json", content := .malformed "boom" } "boom" rfl (by decide)
    "20240101_120000" "2024-01-01T12:00:00"

/-- **C2** (corrected) counterexample to the claim as stated: the Manager
holds an active, connected Kafka adapter; `initialize_source` closes it and
then adapter construction raises.  The call reports failure, but the Manager
is *not* left `Uninitialized`: `current_source` still holds the old, closed
adapter (and `current_type` the old type). -/
theorem failed_initialize_counterexample :
    initializeSource
        { currentSource := some { kind := .kafka, connected := true }
          currentType := some .kafka }
        .fileWatcher true
        { constructRaises := true, connectSucceeds := true }
      = (false,
          { currentSource := some { kind := .kafka, connected := false }
            currentType := some .kafka })
    ∧ (initializeSource
        { currentSource := some { kind := .kafka, connected := true }
          currentType := some .kafka }
        .fileWatcher true
        { constructRaises := true, connectSucceeds := true }).2.currentSource
      ≠ none := by
  refine ⟨rfl, ?_⟩
  simp [initializeSource, Option.map, adapterClose]

/-- **C2** (corrected, amended): a failed `initialize_source` (and thus
`switch_source`) does not reset the Manager to `Uninitialized`.  When
construction raises, `current_source` retains the previous adapter, already
closed; when auto-connect returns false, `current_source` holds the new,
unconnected adapter. -/
theorem failed_initialize_retains_adapter (st : ManagerState)
    (kind : SourceKind) (autoConnect : Bool) (env : InitEnv)
    (hfail : (initializeSource st kind autoConnect env).1 = false) :
    ((env.constructRaises = true
        ∧ (initializeSource st kind autoConnect env).2.currentSource
            = st.currentSource.map adapterClose
        ∧ (initializeSource st kind autoConnect env).2.currentType
            = st.currentType)
      ∨ (env.constructRaises = false
        ∧ (initializeSource st kind autoConnect env).2.currentSource
            = some { kind := kind, connected := false }
        ∧ (initializeSource st kind autoConnect env).2.currentType
            = some kind))
    ∧ switchSource st kind env = initializeSource st kind true env := by
  refine ⟨?_, rfl⟩
  by_cases hc : env.constructRaises
  · exact Or.inl ⟨hc, by simp [initializeSource, hc], by simp [initializeSource, hc]⟩
  · right
    refine ⟨by simpa using hc, ?_, ?_⟩
    all_goals
      by_cases ha : autoConnect
      case pos =>
        by_cases hs : env.connectSucceeds
        case pos => exfalso; simp [initializeSource, hc, ha, hs] at hfail
        case neg => simp [initializeSource, hc, ha, hs]
      case neg => exfalso; simp [initializeSource, hc, ha] at hfail

/-- **C2** witness: failed auto-connect on a fresh Manager — the new,
known-bad adapter is retained as `current_source`. -/
theorem failed_initialize_retains_adapter_witness :
    ((({ constructRaises := false, connectSucceeds := false } : InitEnv
        ).constructRaises = true
      ∧ (initializeSource initialManager .kafka true
          { constructRaises := false, connectSucceeds := false }).2.currentSource
          = initialManager.currentSource.map adapterClose
      ∧ (initializeSource initialManager .kafka true
          { constructRaises := false, connectSucceeds := false }).2.currentType
          = initialManager.currentType)
    ∨ (({ constructRaises := false, connectSucceeds := false } : InitEnv
        ).constructRaises = false
      ∧ (initializeSource initialManager .kafka true
          { constructRaises := false, connectSucceeds := false }).2.currentSource
          = some { kind := .kafka, connected := false }
      ∧ (initializeSource initialManager .kafka true
          { constructRaises := false, connectSucceeds := false }).2.currentType
          = some .kafka))
    ∧ switchSource initialManager .kafka
        { constructRaises := false, connectSucceeds := false }
      = initializeSource initialManager .kafka true
          { constructRaises := false, connectSucceeds := false } :=
  failed_initialize_retains_adapter initialManager .kafka true
    { constructRaises := false, connectSucceeds := false } rfl

/-- **C7** (corrected) counterexample to the claim as stated: with no active
source, `DataSourceManager.close` does not fail with a "no active source"
condition — the `if self.current_source` guard fails and the method silently
returns. -/
theorem manager_close_no_source_counterexample :
    managerClose initialManager = .ok initialManager := by
  rfl

/-- **C7** (corrected, amended): with no active source, `consume_batch`
raises `RuntimeError("No data source initialized")`; `get_status` returns the
distinguished `no_source_initialized` status rather than proceeding as if a
source existed; `close` is a silent no-op that neither fails nor touches any
adapter. -/
theorem manager_no_source_behaviour (st : ManagerState)
    (h : st.currentSource = none) :
    managerConsumeBatch st = .error "No data source initialized"
    ∧ managerGetStatus st = .noSourceInitialized
    ∧ managerClose st = .ok st := by
  refine ⟨?_, ?_, ?_⟩
  all_goals simp [managerConsumeBatch, managerGetStatus, managerClose, h]

/-- **C7** witness: the freshly constructed Manager. -/
theorem manager_no_source_behaviour_witness :
    managerConsumeBatch initialManager = .error "No data source initialized"
    ∧ managerGetStatus initialManager = .noSourceInitialized
    ∧ managerClose initialManager = .ok initialManager :=
  manager_no_source_behaviour initialManager rfl

/-- **C8** (corrected) counterexample to the claim as stated: when the
underlying `observer.stop()` (file-watcher) or client `close()` (broker)
raises, the exception is swallowed — close still never raises — but the
`is_connected = False` assignment sits *inside* the `try` and is skipped, so
after two `close()` calls the adapter still reports `connected = true`. -/
theorem double_close_failure_counterexample :
    (fwClose (fwClose
        { observerAlive := true, connected := true, stopRaises := true })
      ).connected = true
    ∧ (kafkaDataSourceClose (kafkaDataSourceClose
        { hasConsumer := true, connected := true, closeRaises := true })
      ).connected = true := by
  decide

/-- **C8** (corrected, amended): `close()` never raises on either adapter —
both models are total functions whose `try/except` wrapper swallows every
failure of the body — and, provided the underlying `observer.stop()` /
client `close()` does not raise, one `close()` and hence two in succession
leave the adapter reporting `connected = false`. -/
theorem double_close_connected_false (st : FWCloseState)
    (hst : st.stopRaises = false) (kst : KafkaCloseState)
    (hkst : kst.closeRaises = false) :
    (fwClose st).connected = false
    ∧ (fwClose (fwClose st)).connected = false
    ∧ (kafkaDataSourceClose kst).connected = false
    ∧ (kafkaDataSourceClose (kafkaDataSourceClose kst)).connected = false := by
  obtain ⟨oa, c, sr⟩ := st
  obtain ⟨hc, kc, kr⟩ := kst
  subst hst hkst
  refine ⟨?_, ?_, ?_, ?_⟩
  all_goals cases oa <;> cases hc <;> rfl

/-- **C8** witness: a live, connected watcher and a connected broker adapter
whose underlying closes succeed. -/
theorem double_close_connected_false_witness :
    (fwClose { observerAlive := true, connected := true, stopRaises := false }
      ).connected = false
    ∧ (fwClose (fwClose
        { observerAlive := true, connected := true, stopRaises := false })
      ).connected = false
    ∧ (kafkaDataSourceClose
        { hasConsumer := true, connected := true, closeRaises := false }
      ).connected = false
    ∧ (kafkaDataSourceClose (kafkaDataSourceClose
        { hasConsumer := true, connected := true, closeRaises := false })
      ).connected = false :=
  double_close_connected_false
    { observerAlive := true, connected := true, stopRaises := false } rfl
    { hasConsumer := true, connected := true, closeRaises := false } rfl

/-- When no queued name collides with an already-enqueued one and the
scanned names are distinct, the enqueue loop appends exactly the ready
files, in scan order. -/
theorem scanEnqueue_eq_filter :
    ∀ (xs queue : List ScanFile),
      (∀ f ∈ xs, f.name ∉ queue.map ScanFile.name) →
      (xs.map ScanFile.name).Nodup →
      scanEnqueue queue xs = queue ++ xs.filter isFileReady := by
  intro xs
  induction xs with
  | nil => intro queue _ _; simp [scanEnqueue]
  | cons f rest ih =>
    intro queue hq hnd
    simp only [List.map_cons, List.nodup_cons] at hnd
    by_cases hr : isFileReady f
    · have hmem : f.name ∉ queue.map ScanFile.name := hq f (by simp)
      rw [scanEnqueue, if_pos hr, if_neg hmem]
      rw [ih (queue ++ [f]) ?_ hnd.2]
      · simp [List.filter_cons, hr]
      · intro g hg
        simp only [List.map_append, List.map_cons, List.map_nil,
          List.mem_append, List.mem_singleton]
        rintro (hgq | hgf)
        · exact hq g (by simp [hg]) hgq
        · exact hnd.1 (hgf ▸ List.mem_map_of_mem ScanFile.name hg)
    · rw [scanEnqueue, if_neg hr, ih queue (fun g hg => hq g (by simp [hg]))
        hnd.2]
      simp [List.filter_cons, hr]

/-- Under distinct names, the backlog scan is: filter by the fixed pattern
`*.json`, stable-sort by mtime, keep the ready files. -/
theorem scanExistingFiles_characterization (pat : String)
    (listing : List ScanFile) (hnodup : (listing.map ScanFile.name).Nodup) :
    scanExistingFiles pat listing
      = ((listing.filter fun f => matchesPattern "*.json" f.name
          ).insertionSort mtimeLE).filter isFileReady := by
  have hperm :=
    List.perm_insertionSort mtimeLE
      (listing.filter fun f => matchesPattern "*.json" f.name)
  have hsub :
      ((listing.filter fun f => matchesPattern "*.json" f.name
        ).map ScanFile.name).Sublist (listing.map ScanFile.name) :=
    (List.filter_sublist listing).map ScanFile.name
  have hnd2 :
      (((listing.filter fun f => matchesPattern "*.json" f.name
        ).insertionSort mtimeLE).map ScanFile.name).Nodup :=
    ((hperm.map ScanFile.name).nodup_iff).2 (hnodup.sublist hsub)
  have h := scanEnqueue_eq_filter
    ((listing.filter fun f => matchesPattern "*.json" f.name
      ).insertionSort mtimeLE) [] (by simp) hnd2
  simpa [scanExistingFiles] using h

/-- **C5** (corrected) counterexample to the claim as stated: with the glob
pattern configured as `*.txt` and one ready `data.txt` in the input
directory, the claim says the scan enqueues it, but the source passes the
literal `"*.json"` to `glob` — the configured pattern is ignored and nothing
is enqueued. -/
theorem scan_ignores_configured_pattern :
    scanExistingFiles "*.txt"
        [{ name := "data.txt", mtime := 1, initialSize := 5,
           existsAfterWait := true, finalSize := 5 }] = []
    ∧ scanExistingFilesClaimed "*.txt"
        [{ name := "data.txt", mtime := 1, initialSize := 5,
           existsAfterWait := true, finalSize := 5 }]
      = [{ name := "data.txt", mtime := 1, initialSize := 5,
           existsAfterWait := true, finalSize := 5 }]
    ∧ isFileReady ⟨"data.txt", 1, 5, true, 5⟩ = true
    ∧ matchesPattern "*.txt" "data.txt" = true := by
  decide

/-- **C5** (corrected, amended): the startup backlog scan enumerates exactly
the input-directory files matching the *fixed* pattern `*.json` — the
configured glob pattern is ignored — sorts them by modification time
ascending, and enqueues each file that passes the readiness check (still
exists after the 0.5 s wait, size unchanged, size > 0).  Stated for listings
with distinct file names, as directory entries are. -/
theorem scan_fixed_pattern_sorted_ready (pat : String)
    (listing : List ScanFile) (hnodup : (listing.map ScanFile.name).Nodup) :
    scanExistingFiles pat listing = scanExistingFilesClaimed "*.json" listing
    ∧ (∀ f, f ∈ scanExistingFiles pat listing ↔
        f ∈ listing ∧ matchesPattern "*.json" f.name = true
          ∧ isFileReady f = true)
    ∧ (scanExistingFiles pat listing).Pairwise mtimeLE := by
  have hchar := scanExistingFiles_characterization pat listing hnodup
  refine ⟨rfl, ?_, ?_⟩
  · intro f
    rw [hchar, List.mem_filter,
      (List.perm_insertionSort mtimeLE _).mem_iff, List.mem_filter]
    tauto
  · rw [hchar]
    exact List.Pairwise.filter isFileReady
      (List.sorted_insertionSort mtimeLE
        (listing.filter fun f => matchesPattern "*.json" f.name))

/-- **C5** witness: configured pattern `*.txt` over a two-file listing
(out of mtime order), membership instantiated at the older file. -/
theorem scan_fixed_pattern_sorted_ready_witness :
    scanExistingFiles "*.txt"
        [{ name := "b.json", mtime := 2, initialSize := 5,
           existsAfterWait := true, finalSize := 5 },
         { name := "a.json", mtime := 1, initialSize := 3,
           existsAfterWait := true, finalSize := 3 }]
      = scanExistingFilesClaimed "*.json"
          [{ name := "b.json", mtime := 2, initialSize := 5,
             existsAfterWait := true, finalSize := 5 },
           { name := "a.json", mtime := 1, initialSize := 3,
             existsAfterWait := true, finalSize := 3 }]
    ∧ ({ name := "a.json", mtime := 1, initialSize := 3,
         existsAfterWait := true, finalSize := 3 } : ScanFile)
        ∈ scanExistingFiles "*.txt"
            [{ name := "b.json", mtime := 2, initialSize := 5,
               existsAfterWait := true, finalSize := 5 },
             { name := "a.json", mtime := 1, initialSize := 3,
               existsAfterWait := true, finalSize := 3 }]
    ∧ (scanExistingFiles "*.txt"
        [{ name := "b.json", mtime := 2, initialSize := 5,
           existsAfterWait := true, finalSize := 5 },
         { name := "a.json", mtime := 1, initialSize := 3,
           existsAfterWait := true, finalSize := 3 }]).Pairwise mtimeLE := by
  have h := scan_fixed_pattern_sorted_ready "*.txt"
    [{ name := "b.json", mtime := 2, initialSize := 5,
       existsAfterWait := true, finalSize := 5 },
     { name := "a.json", mtime := 1, initialSize := 3,
       existsAfterWait := true, finalSize := 3 }] (by decide)
  refine ⟨h.1, ?_, h.2.2⟩
  exact (h.2.1 _).2 ⟨by decide, by decide, by decide⟩

end Ingest



